import Mathlib

/-!
Verification of the test-result reporting pipeline of the selenium-auto
repository: the dashboard renderer (scripts/generate_dashboard.py), the run
orchestrator (run_tests.py), and the two summary counting paths (the
pytest_sessionfinish hook in tests/conftest.py and TestReporter in
tests/test_aqx_platform.py).

The renderer builds one HTML string by successive appends; it is embedded
here as the ordered list of appended pieces, each piece carrying the values
interpolated into it, together with a faithful piece-to-string rendering
whose static template text is transcribed from the source (literal braces
and apostrophes are written as escape codes).
-/

namespace SeleniumAuto

/-- A run summary as parsed from reports/test_summary.json; every key may be
absent, since the renderer reads each with dict.get and a default of 0. -/
structure RunSummary where
  total_tests : Option Int
  passed : Option Int
  failed : Option Int

/-- The empty summary dict used when the summary file is missing. -/
def RunSummary.empty : RunSummary := ⟨none, none, none⟩

/-- One entry of test_results in reports/test_report.json as the renderer
consumes it: test_name and status are read with dict.get and defaults. -/
structure TestRecord where
  test_name : Option String
  status : Option String

/-- The results dictionary assembled by load_test_results. -/
structure Results where
  summary : RunSummary
  test_details : List TestRecord
  screenshots : List String
  logs : List String

/-- load_test_results (generate_dashboard.py lines 12 to 50). The summary
file and the report file may be absent, modelled as Option arguments holding
the parsed content when present: a missing summary leaves the empty dict, a
missing report leaves an empty detail list (as does a report without the
test_results key), and the screenshot and log directory listings pass
through unchanged. -/
def load_test_results (summary_file : Option RunSummary)
    (report_file : Option (List TestRecord))
    (screenshot_files log_files : List String) : Results :=
  { summary := summary_file.getD RunSummary.empty
  , test_details := report_file.getD []
  , screenshots := screenshot_files
  , logs := log_files }

/-- The pass_rate metric of generate_dashboard_html line 63:
passed / total_tests * 100, and 0 unless total_tests is positive. The
failed count is in scope but unused by the formula, as in the source. -/
def pass_rate (total_tests passed failed : Int) : ℚ :=
  if total_tests > 0 then (passed : ℚ) / (total_tests : ℚ) * 100 else 0

/-- Rounding to the nearest integer with ties to even, the rule Python
float formatting applies at the last rendered digit. -/
def roundHalfEven (q : ℚ) : ℤ :=
  let n := Int.floor q
  let frac := q - (n : ℚ)
  if frac < 1/2 then n
  else if 1/2 < frac then n + 1
  else if n % 2 = 0 then n else n + 1

/-- Print a non-negative count of tenths as a one-decimal string, e.g. 778
becomes "77.8". -/
def fmtTenths (n : ℤ) : String :=
  toString (n / 10) ++ "." ++ toString (n % 10)

/-- The .1f format applied to a rate: round the value to tenths (ties to
even, as for floats whose value is exactly representable) and print it with
one decimal digit. -/
def fmt1f (q : ℚ) : String := fmtTenths (roundHalfEven (q * 10))

/-! The static template text of the document, transcribed from the f-string
template of generate_dashboard_html; literal braces appear as the escapes
for the brace characters and apostrophes as the escape for the apostrophe
character. -/

def headChunk1 : String :=
  "\n<!DOCTYPE html>\n<html lang=\"en\">\n<head>\n    <meta charset=\"UTF-8\">\n    <meta name=\"viewport\" content=\"width=device-width, initial-scale=1.0\">\n    <title>AQX Trading Platform - Test Dashboard</title>\n    <script src=\"https://cdn.jsdelivr.net/npm/chart.js\"></script>\n    <style>\n        * \x7b\n            margin: 0;\n            padding: 0;\n            box-sizing: border-box;\n        \x7d\n        \n        body \x7b\n            font-family: \x27Segoe UI\x27, Tahoma, Geneva, Verdana, sans-serif;\n            background: linear-gradient(135deg, #667eea 0%, #764ba2 100%);\n            min-height: 100vh;\n            color: #333;\n        \x7d\n        \n        .container \x7b\n            max-width: 1200px;\n            margin: 0 auto;\n            padding: 20px;\n        \x7d\n        \n        .header \x7b\n            background: rgba(255, 255, 255, 0.95);\n            border-radius: 15px;\n            padding: 30px;\n            margin-bottom: 30px;\n            box-shadow: 0 10px 30px rgba(0, 0, 0, 0.1);\n            backdrop-filter: blur(10px);\n        \x7d\n        \n        .header h1 \x7b\n            color: #2c3e50;\n            font-size: 2.5em;\n            margin-bottom: 10px;\n            text-align: center;\n        \x7d\n        \n        .header .subtitle \x7b\n            text-align: center;\n            color: #7f8c8d;\n            font-size: 1.2em;\n        \x7d\n        \n        .metrics-grid \x7b\n            display: grid;\n            grid-template-columns: repeat(auto-fit, minmax(250px, 1fr));\n            gap: 20px;\n            margin-bottom: 30px;\n        \x7d\n        \n        .metric-card \x7b\n            background: rgba(255, 255, 255, 0.95);\n            border-radius: 15px;\n            padding: 25px;\n            box-shadow: 0 8px 25px rgba(0, 0, 0, 0.1);\n            backdrop-filter: blur(10px);\n            transition: transform 0.3s ease;\n        \x7d\n        \n        .metric-card:hover \x7b\n            transform: translateY(-5px);\n        \x7d\n        \n        .metric-value \x7b\n            font-size: 3em;\n            font-weight: bold;\n            margin-bottom: 10px;\n        \x7d\n        \n        .metric-label \x7b\n            color: #7f8c8d;\n            font-size: 1.1em;\n        \x7d\n        \n        .passed \x7b color: #27ae60; \x7d\n        .failed \x7b color: #e74c3c; \x7d\n        .total \x7b color: #3498db; \x7d\n        .rate \x7b color: #9b59b6; \x7d\n        \n        .charts-container \x7b\n            display: grid;\n            grid-template-columns: 1fr 1fr;\n            gap: 30px;\n            margin-bottom: 30px;\n        \x7d\n        \n        .chart-card \x7b\n            background: rgba(255, 255, 255, 0.95);\n            border-radius: 15px;\n            padding: 25px;\n            box-shadow: 0 8px 25px rgba(0, 0, 0, 0.1);\n            backdrop-filter: blur(10px);\n        \x7d\n        \n        .test-details \x7b\n            background: rgba(255, 255, 255, 0.95);\n            border-radius: 15px;\n            padding: 25px;\n            box-shadow: 0 8px 25px rgba(0, 0, 0, 0.1);\n            backdrop-filter: blur(10px);\n            margin-bottom: 30px;\n        \x7d\n        \n        .test-item \x7b\n            border-bottom: 1px solid #ecf0f1;\n            padding: 15px 0;\n            display: flex;\n            justify-content: space-between;\n            align-items: center;\n        \x7d\n        \n        .test-item:last-child \x7b\n            border-bottom: none;\n        \x7d\n        \n        .test-name \x7b\n            font-weight: 600;\n            color: #2c3e50;\n        \x7d\n        \n        .test-status \x7b\n            padding: 5px 15px;\n            border-radius: 20px;\n            font-size: 0.9em;\n            font-weight: 600;\n        \x7d\n        \n        .status-passed \x7b\n            background: #d5f4e6;\n            color: #27ae60;\n        \x7d\n        \n        .status-failed \x7b\n            background: #fadbd8;\n            color: #e74c3c;\n        \x7d\n        \n        .screenshots-section \x7b\n            background: rgba(255, 255, 255, 0.95);\n            border-radius: 15px;\n            padding: 25px;\n            box-shadow: 0 8px 25px rgba(0, 0, 0, 0.1);\n            backdrop-filter: blur(10px);\n        \x7d\n        \n        .screenshot-grid \x7b\n            display: grid;\n            grid-template-columns: repeat(auto-fill, minmax(200px, 1fr));\n            gap: 15px;\n            margin-top: 20px;\n        \x7d\n        \n        .screenshot-item \x7b\n            border-radius: 10px;\n            overflow: hidden;\n            box-shadow: 0 4px 15px rgba(0, 0, 0, 0.1);\n            transition: transform 0.3s ease;\n        \x7d\n        \n        .screenshot-item:hover \x7b\n            transform: scale(1.05);\n        \x7d\n        \n        .screenshot-item img \x7b\n            width: 100%;\n            height: auto;\n            cursor: pointer;\n        \x7d\n        \n        .timestamp \x7b\n            color: #7f8c8d;\n            font-size: 0.9em;\n            text-align: center;\n            margin-top: 20px;\n        \x7d\n        \n        @media (max-width: 768px) \x7b\n            .charts-container \x7b\n                grid-template-columns: 1fr;\n            \x7d\n            \n            .metrics-grid \x7b\n                grid-template-columns: 1fr;\n            \x7d\n        \x7d\n    </style>\n</head>\n<body>\n    <div class=\"container\">\n        <div class=\"header\">\n            <h1>🚀 AQX Trading Platform</h1>\n            <div class=\"subtitle\">Automated Test Results Dashboard</div>\n        </div>\n        \n        <div class=\"metrics-grid\">\n            <div class=\"metric-card\">\n                <div class=\"metric-value total\">"

def headChunk2 : String :=
  "</div>\n                <div class=\"metric-label\">Total Tests</div>\n            </div>\n            <div class=\"metric-card\">\n                <div class=\"metric-value passed\">"

def headChunk3 : String :=
  "</div>\n                <div class=\"metric-label\">Tests Passed</div>\n            </div>\n            <div class=\"metric-card\">\n                <div class=\"metric-value failed\">"

def headChunk4 : String :=
  "</div>\n                <div class=\"metric-label\">Tests Failed</div>\n            </div>\n            <div class=\"metric-card\">\n                <div class=\"metric-value rate\">"

def headChunk5 : String :=
  "%</div>\n                <div class=\"metric-label\">Pass Rate</div>\n            </div>\n        </div>\n        \n        <div class=\"charts-container\">\n            <div class=\"chart-card\">\n                <h3>Test Results Distribution</h3>\n                <canvas id=\"resultsChart\" width=\"400\" height=\"200\"></canvas>\n            </div>\n            <div class=\"chart-card\">\n                <h3>Test Categories</h3>\n                <canvas id=\"categoriesChart\" width=\"400\" height=\"200\"></canvas>\n            </div>\n        </div>\n        \n        <div class=\"test-details\">\n            <h3>📋 Detailed Test Results</h3>\n            <div class=\"test-list\">\n"

def testItemChunk1 : String :=
  "\n                <div class=\"test-item\">\n                    <div class=\"test-name\">"

def testItemChunk2 : String :=
  "</div>\n                    <div class=\"test-status "

def testItemChunk3 : String :=
  "\">"

def testItemChunk4 : String :=
  "</div>\n                </div>\n"

def detailsCloseChunk : String :=
  "\n            </div>\n        </div>\n"

def screenshotsOpenChunk : String :=
  "\n        <div class=\"screenshots-section\">\n            <h3>📸 Test Screenshots</h3>\n            <div class=\"screenshot-grid\">\n"

def screenshotChunk1 : String :=
  "\n                <div class=\"screenshot-item\">\n                    <img src=\"screenshots/"

def screenshotChunk2 : String :=
  "\" alt=\"Test Screenshot\" onclick=\"window.open(\x27screenshots/"

def screenshotChunk3 : String :=
  "\x27, \x27_blank\x27)\">\n                </div>\n"

def screenshotsCloseChunk : String :=
  "\n            </div>\n        </div>\n"

def tailChunk1 : String :=
  "\n        <div class=\"timestamp\">\n            Generated on "

def tailChunk2 : String :=
  "\n        </div>\n    </div>\n    \n    <script>\n        // Results chart\n        const resultsCtx = document.getElementById(\x27resultsChart\x27).getContext(\x272d\x27);\n        new Chart(resultsCtx, \x7b\n            type: \x27doughnut\x27,\n            data: \x7b\n                labels: [\x27Passed\x27, \x27Failed\x27],\n                datasets: [\x7b\n                    data: "

def tailChunk3 : String :=
  ",\n                    backgroundColor: [\x27#27ae60\x27, \x27#e74c3c\x27],\n                    borderWidth: 0\n                \x7d]\n            \x7d,\n            options: \x7b\n                responsive: true,\n                plugins: \x7b\n                    legend: \x7b\n                        position: \x27bottom\x27\n                    \x7d\n                \x7d\n            \x7d\n        \x7d);\n        \n        // Categories chart (mock data for demonstration)\n        const categoriesCtx = document.getElementById(\x27categoriesChart\x27).getContext(\x272d\x27);\n        new Chart(categoriesCtx, \x7b\n            type: \x27bar\x27,\n            data: \x7b\n                labels: "

def tailChunk4 : String :=
  ",\n                datasets: [\x7b\n                    label: \x27Tests\x27,\n                    data: "

def tailChunk5 : String :=
  ",\n                    backgroundColor: [\x27#3498db\x27, \x27#9b59b6\x27, \x27#f39c12\x27, \x27#1abc9c\x27],\n                    borderWidth: 0\n                \x7d]\n            \x7d,\n            options: \x7b\n                responsive: true,\n                scales: \x7b\n                    y: \x7b\n                        beginAtZero: true\n                    \x7d\n                \x7d,\n                plugins: \x7b\n                    legend: \x7b\n                        display: false\n                    \x7d\n                \x7d\n            \x7d\n        \x7d);\n    </script>\n</body>\n</html>\n"

/-- The dynamic pieces of the dashboard document in emission order: each
constructor corresponds to one string appended to html_content in
generate_dashboard_html, carrying the values interpolated into it. -/
inductive Piece where
  | head (total_tests passed failed : Int) (rate : ℚ)
  | testItem (test_name status status_class : String)
  | detailsClose
  | screenshotsOpen
  | screenshotItem (screenshot : String)
  | screenshotsClose
  | tail (now : String) (results_data : List Int)
      (categories_labels : List String) (categories_data : List Int)

/-- The loop body of the detail section (generate_dashboard_html lines 302
to 312): one test item per record, with the name defaulting to Unknown
Test, the status to UNKNOWN, and the status class chosen by comparing the
status with PASSED. -/
def testItemPiece (test : TestRecord) : Piece :=
  let test_name := test.test_name.getD "Unknown Test"
  let status := test.status.getD "UNKNOWN"
  let status_class := if status = "PASSED" then "status-passed" else "status-failed"
  Piece.testItem test_name status status_class

/-- The pieces emitted before the closing block (generate_dashboard_html
lines 52 to 335): the head block with the four metrics, one test item per
detail record, the close of the detail list, and the screenshots section
only when the screenshot list is non-empty, holding the first 12 filenames
in order. -/
def dashboardBody (results : Results) : List Piece :=
  let summary := results.summary
  let test_details := results.test_details
  let screenshots := results.screenshots
  let total_tests := summary.total_tests.getD 0
  let passed := summary.passed.getD 0
  let failed := summary.failed.getD 0
  [Piece.head total_tests passed failed (pass_rate total_tests passed failed)]
  ++ test_details.map testItemPiece
  ++ [Piece.detailsClose]
  ++ (if results.screenshots.isEmpty then []
      else [Piece.screenshotsOpen]
        ++ (screenshots.take 12).map Piece.screenshotItem
        ++ [Piece.screenshotsClose])

/-- All pieces of the document (generate_dashboard_html lines 52 to 396):
the body followed by the closing block, which embeds the generation
timestamp, the passed and failed counts as the results chart data, and the
hard-coded categories chart labels and data. -/
def dashboardPieces (results : Results) (now : String) : List Piece :=
  let passed := results.summary.passed.getD 0
  let failed := results.summary.failed.getD 0
  dashboardBody results
    ++ [Piece.tail now [passed, failed]
          ["Login", "Trading", "Views", "Bulk Ops"] [2, 4, 4, 2]]

/-- Render a chart data list of integers as the bracketed comma-separated
literal the script block embeds. -/
def renderIntList (xs : List Int) : String :=
  "[" ++ String.intercalate ", " (xs.map toString) ++ "]"

/-- Render a chart label list as the bracketed literal of quoted names the
script block embeds. -/
def renderLabelList (xs : List String) : String :=
  "[" ++ String.intercalate ", " (xs.map (fun l => "\x27" ++ l ++ "\x27")) ++ "]"

/-- The string appended to html_content for each piece, interleaving the
static template text with the interpolated values exactly as the f-string
templates of generate_dashboard_html do. -/
def pieceToString : Piece → String
  | Piece.head t p f r =>
      headChunk1 ++ toString t ++ headChunk2 ++ toString p ++ headChunk3
        ++ toString f ++ headChunk4 ++ fmt1f r ++ headChunk5
  | Piece.testItem name status cls =>
      testItemChunk1 ++ name ++ testItemChunk2 ++ cls ++ testItemChunk3
        ++ status ++ testItemChunk4
  | Piece.detailsClose => detailsCloseChunk
  | Piece.screenshotsOpen => screenshotsOpenChunk
  | Piece.screenshotItem s =>
      screenshotChunk1 ++ s ++ screenshotChunk2 ++ s ++ screenshotChunk3
  | Piece.screenshotsClose => screenshotsCloseChunk
  | Piece.tail now rdata labels cdata =>
      tailChunk1 ++ now ++ tailChunk2 ++ renderIntList rdata ++ tailChunk3
        ++ renderLabelList labels ++ tailChunk4 ++ renderIntList cdata ++ tailChunk5

/-- Concatenation of the rendered pieces, mirroring the successive appends
to html_content. -/
def concatPieces : List Piece → String
  | [] => ""
  | p :: ps => pieceToString p ++ concatPieces ps

/-- generate_dashboard_html: the full HTML document for the given results;
now is the datetime.now() timestamp string interpolated into the closing
block. -/
def generate_dashboard_html (results : Results) (now : String) : String :=
  concatPieces (dashboardPieces results now)

/-- The metrics interpolated into the head block of a piece, the rate taken
as its .1f rendering. -/
def pieceMetrics : Piece → Option (Int × Int × Int × String)
  | Piece.head t p f r => some (t, p, f, fmt1f r)
  | _ => none

/-- The metric blocks appearing in the document, in order. -/
def renderedMetrics (pieces : List Piece) : List (Int × Int × Int × String) :=
  pieces.filterMap pieceMetrics

/-- The displayed name and status of a detail entry piece. -/
def pieceTestEntry : Piece → Option (String × String)
  | Piece.testItem n s _ => some (n, s)
  | _ => none

/-- The detail entries appearing in the document, in order. -/
def renderedTestItems (pieces : List Piece) : List (String × String) :=
  pieces.filterMap pieceTestEntry

/-- The filename of a screenshot entry piece. -/
def pieceScreenshot : Piece → Option String
  | Piece.screenshotItem s => some s
  | _ => none

/-- The screenshot entries appearing in the document, in order. -/
def renderedScreenshots (pieces : List Piece) : List String :=
  pieces.filterMap pieceScreenshot

/-- Whether a piece belongs to the screenshots section (its heading, an
entry of its grid, or its close). -/
def isScreenshotSectionPiece : Piece → Bool
  | Piece.screenshotsOpen => true
  | Piece.screenshotItem _ => true
  | Piece.screenshotsClose => true
  | _ => false

/-- Whether the document contains any part of the screenshots section. -/
def hasScreenshotSection (pieces : List Piece) : Bool :=
  pieces.any isScreenshotSectionPiece

/-- The chart datasets of a closing block piece: results chart data,
categories chart labels, categories chart data. -/
def pieceCharts : Piece → Option (List Int × List String × List Int)
  | Piece.tail _ rdata labels cdata => some (rdata, labels, cdata)
  | _ => none

/-- The chart dataset blocks appearing in the document, in order. -/
def renderedCharts (pieces : List Piece) : List (List Int × List String × List Int) :=
  pieces.filterMap pieceCharts

/-!
The run orchestrator, run_tests.py.
-/

/-- Outcome of the subprocess.run invocation of the pytest engine (lines 72
to 78): either a completed process with its captured exit code, standard
output and standard error, or an exception raised by the launch itself,
such as the executable missing. -/
inductive EngineOutcome where
  | completed (returncode : Int) (stdout stderr : String)
  | launchError (msg : String)

/-- TestRunner.generate_dashboard (lines 101 to 111): the renderer
subprocess runs with check equal True, so a failure raises, is caught by
the handler, and becomes a printed warning; the result is the warning
message when the step failed and nothing otherwise. -/
def generate_dashboard_step (render : Except String Unit) : Option String :=
  match render with
  | Except.ok _ => none
  | Except.error e => some ("Dashboard generation failed: " ++ e)

/-- The pytest command built by TestRunner.run_tests lines 40 to 60: the
marker selection is added only when the test type is not all, then
verbosity, the HTML report, the JUnit report, and the parallelism flag. -/
def build_cmd (test_type : String) (parallel : Bool)
    (report_path junit_path : String) : List String :=
  (["python", "-m", "pytest"]
    ++ (if test_type ≠ "all" then ["-m", test_type] else [])
    ++ ["-v"]
    ++ ["--html", report_path, "--self-contained-html"]
    ++ ["--junit-xml", junit_path])
  ++ (if parallel then ["-n", "auto"] else [])

/-- The environment variables set before the invocation (lines 63 to 66). -/
def run_env (headless : Bool) (browser : String) : List (String × String) :=
  (if headless then [("HEADLESS", "true")] else []) ++ [("BROWSER", browser)]

/-- What one TestRunner.run_tests call did: the command it built, whether
the dashboard step ran, the warning that step printed if it failed, and the
boolean result returned to main. -/
structure RunTrace where
  cmd : List String
  dashboard_invoked : Bool
  dashboard_warning : Option String
  success : Bool

/-- TestRunner.run_tests (lines 29 to 99): when the engine launch completes
the dashboard step and the summary printing always follow, whatever the
exit code, and the return value is returncode equal to 0; when the launch
raises, the handler prints the error and returns False, so the dashboard
step is not reached. -/
def run_tests (test_type : String) (parallel : Bool)
    (report_path junit_path : String)
    (engine : EngineOutcome) (render : Except String Unit) : RunTrace :=
  let cmd := build_cmd test_type parallel report_path junit_path
  match engine with
  | EngineOutcome.completed rc _stdout _stderr =>
      { cmd := cmd
      , dashboard_invoked := true
      , dashboard_warning := generate_dashboard_step render
      , success := rc == 0 }
  | EngineOutcome.launchError _msg =>
      { cmd := cmd
      , dashboard_invoked := false
      , dashboard_warning := none
      , success := false }

/-- main, lines 241 to 249: sys.exit with 0 when run_tests returned True
and 1 otherwise. -/
def main_exit (test_type : String) (parallel : Bool)
    (report_path junit_path : String)
    (engine : EngineOutcome) (render : Except String Unit) : Int :=
  if (run_tests test_type parallel report_path junit_path engine render).success
  then 0 else 1

/-!
The two summary counting paths.
-/

/-- The summary written by pytest_sessionfinish in conftest.py lines 111 to
124. -/
structure SessionSummary where
  total_tests : Nat
  passed : Int
  failed : Nat
  exit_status : Int
  end_time : String

/-- pytest_sessionfinish: passed is computed as testscollected minus
testsfailed with integer subtraction, and the counts are written to
reports/test_summary.json. -/
def pytest_sessionfinish (testscollected testsfailed : Nat) (exitstatus : Int)
    (end_time : String) : SessionSummary :=
  { total_tests := testscollected
  , passed := (testscollected : Int) - (testsfailed : Int)
  , failed := testsfailed
  , exit_status := exitstatus
  , end_time := end_time }

/-- One result appended by TestReporter.add_result in test_aqx_platform.py
lines 393 to 402. -/
structure ReporterRecord where
  test_name : String
  status : String
  details : List (String × String)
  timestamp : String
  duration : ℚ

/-- The summary part of the report built by TestReporter.generate_report
(lines 404 to 423). -/
structure ReportSummary where
  total_tests : Nat
  passed : Nat
  failed : Nat
  pass_rate : String

/-- TestReporter.generate_report: passed and failed count the records whose
status is exactly PASSED respectively FAILED, total_tests is the number of
records, and pass_rate is the .1f rendering of the percentage, or the
constant 0 percent string when there are no records. -/
def generate_report (results : List ReporterRecord) : ReportSummary :=
  let passed := (results.filter (fun r => r.status == "PASSED")).length
  let failed := (results.filter (fun r => r.status == "FAILED")).length
  { total_tests := results.length
  , passed := passed
  , failed := failed
  , pass_rate :=
      if results.isEmpty then "0%"
      else fmt1f ((passed : ℚ) / (results.length : ℚ) * 100) ++ "%" }

/-!
Helper lemmas about filtering the emitted piece lists and about piece
concatenation.
-/

lemma filterMap_comp_none {α β γ : Type} (g : α → β) (f : β → Option γ)
    (h : ∀ a, f (g a) = none) (l : List α) : l.filterMap (f ∘ g) = [] := by
  induction l with
  | nil => rfl
  | cons a as ih => simp [List.filterMap_cons, Function.comp, h, ih]

lemma filterMap_comp_some {α β γ : Type} (g : α → β) (f : β → Option γ) (k : α → γ)
    (h : ∀ a, f (g a) = some (k a)) (l : List α) : l.filterMap (f ∘ g) = l.map k := by
  induction l with
  | nil => rfl
  | cons a as ih => simp [List.filterMap_cons, Function.comp, h, ih]

lemma entry_testItems (det : List TestRecord) :
    det.filterMap (pieceTestEntry ∘ testItemPiece)
      = det.map (fun t => (t.test_name.getD "Unknown Test", t.status.getD "UNKNOWN")) :=
  filterMap_comp_some _ _ _ (fun _ => rfl) det

lemma entry_screens (l : List String) :
    l.filterMap (pieceTestEntry ∘ Piece.screenshotItem) = [] :=
  filterMap_comp_none _ _ (fun _ => rfl) l

lemma shot_testItems (det : List TestRecord) :
    det.filterMap (pieceScreenshot ∘ testItemPiece) = [] :=
  filterMap_comp_none _ _ (fun _ => rfl) det

lemma shot_screens (l : List String) :
    l.filterMap (pieceScreenshot ∘ Piece.screenshotItem) = l :=
  (filterMap_comp_some _ _ (fun s => s) (fun _ => rfl) l).trans (List.map_id' l)

lemma metrics_testItems (det : List TestRecord) :
    det.filterMap (pieceMetrics ∘ testItemPiece) = [] :=
  filterMap_comp_none _ _ (fun _ => rfl) det

lemma metrics_screens (l : List String) :
    l.filterMap (pieceMetrics ∘ Piece.screenshotItem) = [] :=
  filterMap_comp_none _ _ (fun _ => rfl) l

lemma charts_testItems (det : List TestRecord) :
    det.filterMap (pieceCharts ∘ testItemPiece) = [] :=
  filterMap_comp_none _ _ (fun _ => rfl) det

lemma charts_screens (l : List String) :
    l.filterMap (pieceCharts ∘ Piece.screenshotItem) = [] :=
  filterMap_comp_none _ _ (fun _ => rfl) l

lemma concatPieces_append (a b : List Piece) :
    concatPieces (a ++ b) = concatPieces a ++ concatPieces b := by
  induction a with
  | nil => simp [concatPieces]
  | cons p ps ih => simp [concatPieces, ih, String.append_assoc]

lemma fmt1f_972 : fmt1f (pass_rate 9 7 2) = "77.8" := by
  have h1 : pass_rate 9 7 2 * 10 = 7000/9 := by norm_num [pass_rate]
  have hf : Int.floor ((7000:ℚ)/9) = 777 := by norm_num
  have h2 : roundHalfEven ((7000:ℚ)/9) = 778 := by norm_num [roundHalfEven, hf]
  rw [fmt1f, h1, h2]; rfl

lemma fmt1f_zero : fmt1f (0 : ℚ) = "0.0" := by
  have h1 : (0:ℚ) * 10 = 0 := by norm_num
  have hf : Int.floor ((0:ℚ)) = 0 := by norm_num
  have h2 : roundHalfEven ((0:ℚ)) = 0 := by norm_num [roundHalfEven, hf]
  rw [fmt1f, h1, h2]; rfl

/-!
The claims.
-/

/-- C1: for non-negative integers p, f with p + f = t > 0 the pass_rate
metric equals p / t * 100 exactly, pass_rate is 0 when total_tests is 0,
and a summary of 9 total, 7 passed, 2 failed renders the metric blocks 9,
7, 2 and the rate string 77.8 followed by the percent sign of the
template. -/
theorem pass_rate_spec (p f t : ℤ) (hp : 0 ≤ p) (hf : 0 ≤ f)
    (hpf : p + f = t) (ht : 0 < t) :
    pass_rate t p f = (p : ℚ) / (t : ℚ) * 100
      ∧ pass_rate 0 0 0 = 0
      ∧ ∀ shots logs now,
          renderedMetrics (dashboardPieces
            (load_test_results (some ⟨some 9, some 7, some 2⟩) (some []) shots logs) now)
          = [(9, 7, 2, "77.8")] := by
  refine ⟨?_, ?_, ?_⟩
  · simp [pass_rate, ht]
  · simp [pass_rate]
  · intro shots logs now
    rcases shots with _ | ⟨s, ss⟩ <;>
      simp [renderedMetrics, dashboardPieces, dashboardBody, load_test_results,
        pieceMetrics, List.filterMap_append, List.filterMap_cons,
        metrics_testItems, metrics_screens, fmt1f_972,
        ← List.map_take, List.forall_mem_map]

/-- Witness for C1 at total 9, passed 7, failed 2. -/
theorem pass_rate_spec_witness :
    pass_rate 9 7 2 = ((7:ℤ) : ℚ) / ((9:ℤ) : ℚ) * 100 :=
  (pass_rate_spec 7 2 9 (by decide) (by decide) (by decide) (by decide)).1

/-- C2: with no summary document and no detail document the renderer still
produces a document whose metric blocks are 0 total, 0 passed, 0 failed
with rate string 0.0, and whose detail section contains no entries. -/
theorem missing_inputs_render_zero (shots logs : List String) (now : String) :
    renderedMetrics (dashboardPieces (load_test_results none none shots logs) now)
        = [(0, 0, 0, "0.0")]
      ∧ renderedTestItems (dashboardPieces (load_test_results none none shots logs) now)
        = [] := by
  constructor <;>
    rcases shots with _ | ⟨s, ss⟩ <;>
      simp [renderedMetrics, renderedTestItems, dashboardPieces, dashboardBody,
        load_test_results, RunSummary.empty, pieceMetrics, pieceTestEntry,
        List.filterMap_append, List.filterMap_cons,
        metrics_testItems, metrics_screens, entry_testItems, entry_screens,
        fmt1f_zero, pass_rate, ← List.map_take, List.forall_mem_map]

/-- C3: the rendered detail section contains exactly one entry per detail
record, in the order of the input list, each showing the record's name and
status, with no sorting and no de-duplication; in particular the entry
count equals the record count. -/
theorem detail_entries_one_per_record (results : Results) (now : String) :
    renderedTestItems (dashboardPieces results now)
        = results.test_details.map
            (fun t => (t.test_name.getD "Unknown Test", t.status.getD "UNKNOWN"))
      ∧ (renderedTestItems (dashboardPieces results now)).length
        = results.test_details.length := by
  have key : renderedTestItems (dashboardPieces results now)
      = results.test_details.map
          (fun t => (t.test_name.getD "Unknown Test", t.status.getD "UNKNOWN")) := by
    obtain ⟨sum, det, shots, logs⟩ := results
    rcases shots with _ | ⟨s, ss⟩ <;>
      simp [renderedTestItems, dashboardPieces, dashboardBody, pieceTestEntry,
        List.filterMap_append, List.filterMap_cons,
        entry_testItems, entry_screens, ← List.map_take, List.forall_mem_map]
  exact ⟨key, by rw [key, List.length_map]⟩

/-- C4: the rendered screenshot section contains exactly the first 12
discovered filenames in discovery order (all of them when fewer), so with
at least 12 filenames, in particular with 15, exactly 12 entries appear. -/
theorem screenshots_capped_at_twelve (results : Results) (now : String) :
    renderedScreenshots (dashboardPieces results now) = results.screenshots.take 12
      ∧ (12 ≤ results.screenshots.length →
          (renderedScreenshots (dashboardPieces results now)).length = 12) := by
  have key : renderedScreenshots (dashboardPieces results now)
      = results.screenshots.take 12 := by
    obtain ⟨sum, det, shots, logs⟩ := results
    rcases shots with _ | ⟨s, ss⟩ <;>
      simp [renderedScreenshots, dashboardPieces, dashboardBody, pieceScreenshot,
        List.filterMap_append, List.filterMap_cons,
        shot_testItems, shot_screens, ← List.map_take, List.forall_mem_map]
  refine ⟨key, fun h => ?_⟩
  rw [key, List.length_take]
  omega

/-- Witness for C4 at a list of 15 discovered screenshot filenames. -/
theorem screenshots_capped_at_twelve_witness :
    (renderedScreenshots (dashboardPieces
      ⟨⟨none, none, none⟩, [],
        ["s01.png", "s02.png", "s03.png", "s04.png", "s05.png", "s06.png",
         "s07.png", "s08.png", "s09.png", "s10.png", "s11.png", "s12.png",
         "s13.png", "s14.png", "s15.png"], []⟩ "now")).length = 12 :=
  (screenshots_capped_at_twelve
    ⟨⟨none, none, none⟩, [],
      ["s01.png", "s02.png", "s03.png", "s04.png", "s05.png", "s06.png",
       "s07.png", "s08.png", "s09.png", "s10.png", "s11.png", "s12.png",
       "s13.png", "s14.png", "s15.png"], []⟩ "now").2 (by decide)

/-- C5: rendering is deterministic modulo the embedded generation
timestamp: for one and the same input and any two timestamps, the two
outputs are the same string except that the timestamp substring differs,
i.e. both factor through a common prefix and suffix around the
timestamp. -/
theorem render_deterministic_modulo_timestamp (results : Results) (ts1 ts2 : String) :
    ∃ pre post,
      generate_dashboard_html results ts1 = pre ++ ts1 ++ post
        ∧ generate_dashboard_html results ts2 = pre ++ ts2 ++ post := by
  refine ⟨concatPieces (dashboardBody results) ++ tailChunk1,
    tailChunk2
      ++ renderIntList [results.summary.passed.getD 0, results.summary.failed.getD 0]
      ++ tailChunk3 ++ renderLabelList ["Login", "Trading", "Views", "Bulk Ops"]
      ++ tailChunk4 ++ renderIntList [2, 4, 4, 2] ++ tailChunk5, ?_, ?_⟩ <;>
    simp [generate_dashboard_html, dashboardPieces, concatPieces_append,
      concatPieces, pieceToString, String.append_assoc]

/-- C6: the orchestrator's process exit code is 0 exactly when the engine's
exit code was 0 (a non-zero engine exit is returned, not raised), and a
failure of the launch itself, such as the executable missing, also exits
non-zero. -/
theorem exit_code_zero_iff_engine_zero (tt : String) (par : Bool) (rp jp : String) :
    (∀ (rc : Int) (out err : String) (render : Except String Unit),
        main_exit tt par rp jp (EngineOutcome.completed rc out err) render = 0 ↔ rc = 0)
      ∧ (∀ (msg : String) (render : Except String Unit),
          main_exit tt par rp jp (EngineOutcome.launchError msg) render ≠ 0) := by
  constructor
  · intro rc out err render
    by_cases h : rc = 0 <;> simp [main_exit, run_tests, h]
  · intro msg render
    simp [main_exit, run_tests]

/-- C7: whenever the engine invocation completes, whatever its exit code,
the dashboard step always runs; a failing renderer yields the caught
warning message and a succeeding one yields none; the run's verdict does
not depend on the renderer's outcome; and with engine exit code 1 and a
failing renderer the process still exits 1. -/
theorem dashboard_always_invoked_never_escalated (tt : String) (par : Bool)
    (rp jp : String) (rc : Int) (out err emsg : String) :
    (∀ render,
        (run_tests tt par rp jp (EngineOutcome.completed rc out err) render).dashboard_invoked
          = true)
      ∧ (run_tests tt par rp jp (EngineOutcome.completed rc out err)
            (Except.error emsg)).dashboard_warning
          = some ("Dashboard generation failed: " ++ emsg)
      ∧ (run_tests tt par rp jp (EngineOutcome.completed rc out err)
            (Except.ok ())).dashboard_warning = none
      ∧ (∀ render render',
          (run_tests tt par rp jp (EngineOutcome.completed rc out err) render).success
            = (run_tests tt par rp jp (EngineOutcome.completed rc out err) render').success)
      ∧ main_exit tt par rp jp (EngineOutcome.completed 1 out err) (Except.error emsg) = 1 := by
  refine ⟨fun render => rfl, rfl, rfl, fun render render' => rfl, ?_⟩
  simp [main_exit, run_tests]

/-- C8 counterexample: the claim's non-negativity fails on the hook path.
A session whose only report is a collection error reaches
pytest_sessionfinish with testscollected 0 and testsfailed 1 (pytest counts
collect-error reports in testsfailed but not in testscollected), and the
hook then writes a summary whose passed field is minus one. -/
theorem summary_counts_counterexample :
    (pytest_sessionfinish 0 1 1 "end").passed = -1
      ∧ ¬ 0 ≤ (pytest_sessionfinish 0 1 1 "end").passed := by
  constructor <;> decide

/-- C8 amended: total_tests and failed are non-negative on both paths, and
total_tests equals passed plus failed holds unconditionally on the hook
path, whose passed field however is non-negative exactly when the engine
reports at most as many failed tests as collected ones; the reporter's
generated report summary has non-negative counts and satisfies the sum
invariant whenever every recorded status is PASSED or FAILED (the only two
statuses the repository's add_result call sites pass). -/
theorem summary_counts_amended :
    (∀ (collected failedc : ℕ) (ex : Int) (et : String),
        0 ≤ ((pytest_sessionfinish collected failedc ex et).total_tests : Int)
        ∧ 0 ≤ ((pytest_sessionfinish collected failedc ex et).failed : Int)
        ∧ ((pytest_sessionfinish collected failedc ex et).total_tests : Int)
            = (pytest_sessionfinish collected failedc ex et).passed
              + ((pytest_sessionfinish collected failedc ex et).failed : Int)
        ∧ (0 ≤ (pytest_sessionfinish collected failedc ex et).passed
            ↔ failedc ≤ collected))
      ∧ (∀ l : List ReporterRecord,
          (∀ r ∈ l, r.status = "PASSED" ∨ r.status = "FAILED") →
          (generate_report l).total_tests
            = (generate_report l).passed + (generate_report l).failed) := by
  constructor
  · intro collected failedc ex et
    refine ⟨by positivity, by positivity, ?_, ?_⟩ <;>
      simp [pytest_sessionfinish] <;> omega
  · intro l h
    simp only [generate_report]
    induction l with
    | nil => rfl
    | cons r rs ih =>
      have hr := h r (by simp)
      have hrs : ∀ x ∈ rs, x.status = "PASSED" ∨ x.status = "FAILED" :=
        fun x hx => h x (by simp [hx])
      rcases hr with h1 | h1 <;>
        simp [List.filter_cons, h1, ih hrs] <;> omega

/-- Witness for the amended C8 at a finished session of 9 collected, 2
failed tests and at a two-record report with one passed and one failed
test. -/
theorem summary_counts_amended_witness :
    (((pytest_sessionfinish 9 2 0 "end").total_tests : Int)
        = (pytest_sessionfinish 9 2 0 "end").passed
          + ((pytest_sessionfinish 9 2 0 "end").failed : Int)
      ∧ (0 ≤ (pytest_sessionfinish 9 2 0 "end").passed ↔ 2 ≤ 9))
      ∧ (generate_report
            [⟨"test_login_page_loads", "PASSED", [], "t1", 0⟩,
             ⟨"test_successful_login", "FAILED", [], "t2", 0⟩]).total_tests
          = (generate_report
              [⟨"test_login_page_loads", "PASSED", [], "t1", 0⟩,
               ⟨"test_successful_login", "FAILED", [], "t2", 0⟩]).passed
            + (generate_report
                [⟨"test_login_page_loads", "PASSED", [], "t1", 0⟩,
                 ⟨"test_successful_login", "FAILED", [], "t2", 0⟩]).failed :=
  ⟨⟨(summary_counts_amended.1 9 2 0 "end").2.2.1,
      (summary_counts_amended.1 9 2 0 "end").2.2.2⟩,
    summary_counts_amended.2
      [⟨"test_login_page_loads", "PASSED", [], "t1", 0⟩,
       ⟨"test_successful_login", "FAILED", [], "t2", 0⟩] (by decide)⟩

/-- C9: the categories chart embedded in the document carries the fixed
labels Login, Trading, Views, Bulk Ops with the fixed counts 2, 4, 4, 2 for
every input, while the results chart data is the summary's passed and
failed counts. -/
theorem categories_chart_constant (results : Results) (now : String) :
    renderedCharts (dashboardPieces results now)
      = [([results.summary.passed.getD 0, results.summary.failed.getD 0],
          ["Login", "Trading", "Views", "Bulk Ops"], [2, 4, 4, 2])] := by
  obtain ⟨sum, det, shots, logs⟩ := results
  rcases shots with _ | ⟨s, ss⟩ <;>
    simp [renderedCharts, dashboardPieces, dashboardBody, pieceCharts,
      List.filterMap_append, List.filterMap_cons,
      charts_testItems, charts_screens, ← List.map_take, List.forall_mem_map]

/-- C10: the document contains pieces of the screenshots section (heading,
grid entries or close) exactly when the screenshot list is non-empty; with
an empty list the section is omitted entirely. -/
theorem screenshots_section_iff_nonempty (results : Results) (now : String) :
    hasScreenshotSection (dashboardPieces results now) = !results.screenshots.isEmpty := by
  obtain ⟨sum, det, shots, logs⟩ := results
  rcases shots with _ | ⟨s, ss⟩ <;>
    simp [hasScreenshotSection, dashboardPieces, dashboardBody, testItemPiece,
      isScreenshotSectionPiece, List.any_append, List.forall_mem_map,
      ← List.map_take]

end SeleniumAuto
